import Mathlib

/-!
Verification of the SmartHub ESP32 controller core: the status parser,
the two-tier connectivity probe, the beacon command transport
(`src/services/esp32.ts`), the connection reconciler (`syncStatus`,
`handleToggle`, `handleVoiceCommand`, `handleLcdSubmit` in the app
component), and the voice command engine (`src/components/VoiceControl.tsx`).

Strings are modelled as `List Char`; JavaScript timers/timestamps as `Nat`
milliseconds; network and speech events as explicit parameters so every
operation is a pure function of its inputs.
-/

/-! ## Status parser (`parseRelayStatus`) -/

/-- Case-insensitive prefix test: does `pat` match at the head of `s`,
comparing characters through `Char.toLower` (the JS `i` regex flag)? -/
def ciStarts : List Char → List Char → Bool
  | [], _ => true
  | _ :: _, [] => false
  | p :: ps, c :: cs => (p.toLower == c.toLower) && ciStarts ps cs

/-- Leftmost scan for the alternation `on | off` of two literal patterns,
with the `on` branch preferred at a given position, as a JS regex
`Relay N: (ON|OFF)` does: `some true` if the first position matching either
pattern matches the ON pattern, `some false` if it matches the OFF pattern,
`none` when neither occurs. -/
def findRelayMatch (pon poff : List Char) : List Char → Option Bool
  | [] => none
  | c :: rest =>
    if ciStarts pon (c :: rest) then some true
    else if ciStarts poff (c :: rest) then some false
    else findRelayMatch pon poff rest

/-- Index of the first case-insensitive occurrence of `pat` in `s`. -/
def firstCiIdx (pat : List Char) : List Char → Option Nat
  | [] => if pat.isEmpty then some 0 else none
  | c :: rest =>
    if ciStarts pat (c :: rest) then some 0
    else (firstCiIdx pat rest).map (· + 1)

/-- The literal `Relay ${i+1}: ON` pattern of the source regex. -/
def relayOnPat (i : Nat) : List Char :=
  (("Relay " ++ toString (i + 1) ++ ": ON") : String).data

/-- The literal `Relay ${i+1}: OFF` pattern of the source regex. -/
def relayOffPat (i : Nat) : List Char :=
  (("Relay " ++ toString (i + 1) ++ ": OFF") : String).data

/-- `parseRelayStatus` from `src/services/esp32.ts`: start from
`[false, false, false, false]`; for each `i < 4` search the text for a
case-insensitive match of `Relay ${i+1}: (ON|OFF)` and, when one is found,
set entry `i` from the captured group. -/
def parseRelayStatus (html : String) : List Bool :=
  (List.range 4).map fun i =>
    (findRelayMatch (relayOnPat i) (relayOffPat i) html.data).getD false

/-! ## Connectivity probe (`fetchRelayStatus`) -/

/-- Outcome of the tier-1 (readable, CORS) fetch: either the browser
resolved with an HTTP status and a readable body, or the fetch rejected
(network error, CORS failure, or the 3000 ms abort). -/
inductive Tier1Result where
  | resp (status : Nat) (body : String)
  | reject (msg : String)
  deriving DecidableEq

/-- Outcome of the tier-2 (opaque, no-cors) ping: resolved, or rejected
(network error or the 1000 ms abort). -/
inductive Tier2Result where
  | ok
  | reject (msg : String)
  deriving DecidableEq

/-- Errors the probe can carry: a rejected fetch, or the
`HTTP error! status: ...` thrown on a non-ok readable response. -/
inductive ProbeError where
  | network (msg : String)
  | httpStatus (status : Nat)
  deriving DecidableEq

/-- The three-way poll outcome of `fetchRelayStatus`: a parsed state
vector (`boolean[]`), `null` ("online but blind"), or a thrown error. -/
inductive FetchResult where
  | statesKnown (states : List Bool)
  | reachableOpaque
  | unreachable (e : ProbeError)
  deriving DecidableEq

/-- `Response.ok`: status in the 2xx range. -/
def httpOk (status : Nat) : Bool := 200 ≤ status && status < 300

/-- The error the tier-1 attempt raises, if any: `none` exactly when the
readable fetch resolved with an ok status. -/
def tier1Err : Tier1Result → Option ProbeError
  | .resp status _ => if httpOk status then none else some (.httpStatus status)
  | .reject msg => some (.network msg)

/-- The fallback branch of `fetchRelayStatus`: on tier-2 success return
`null` (reachable but opaque), otherwise re-throw the tier-1 error `e`. -/
def fallbackProbe (e : ProbeError) : Tier2Result → FetchResult
  | .ok => .reachableOpaque
  | .reject _ => .unreachable e

/-- `fetchRelayStatus` from `src/services/esp32.ts` as a function of the
two fetch outcomes: if the readable fetch resolves with an ok status,
parse its body; on any tier-1 failure run the opaque fallback. -/
def fetchRelayStatus (t1 : Tier1Result) (t2 : Tier2Result) : FetchResult :=
  match t1 with
  | .resp status body =>
    if httpOk status then .statesKnown (parseRelayStatus body)
    else fallbackProbe (.httpStatus status) t2
  | .reject msg => fallbackProbe (.network msg) t2

/-! ## Beacon command transport (`toggleRelayRequest`) -/

/-- The event that settles the beacon promise first: the image `onload`
callback, the image `onerror` callback, or the unconditional 100 ms
`setTimeout`. -/
inductive BeaconEvent where
  | load
  | error
  | timeout
  deriving DecidableEq

/-- How a promise executor settles. -/
inductive PromiseSettle where
  | resolved
  | rejected (msg : String)
  deriving DecidableEq

/-- `toggleRelayRequest` from `src/services/esp32.ts`, beacon version: the
promise settles according to whichever of the three callbacks fires first.
`onload` calls `resolve()`, `onerror` calls `resolve()` (the packet was
sent even if reading was blocked), and the 100 ms timeout calls
`resolve()`. -/
def toggleRelaySettle : BeaconEvent → PromiseSettle
  | .load => .resolved
  | .error => .resolved
  | .timeout => .resolved

/-- The beacon transport outcome as seen by the `await` in
`handleToggle`: `.ok` when the promise resolved, `.error` when it
rejected. -/
def toggleTransportResult (ev : BeaconEvent) : Except String Unit :=
  match toggleRelaySettle ev with
  | .resolved => Except.ok ()
  | .rejected msg => Except.error msg

/-! ## Connection reconciler (app component, `src/unnamed/part_001`) -/

/-- A relay card: `{ id, name, state, isLoading }`. -/
structure Relay where
  id : Nat
  name : String
  state : Bool
  isLoading : Bool
  deriving DecidableEq

/-- The `ConnectionStatus` enum. -/
inductive ConnectionStatus where
  | disconnected
  | connecting
  | connected
  | error
  deriving DecidableEq

/-- `{ ipAddress, useDemoMode }`. -/
structure AppSettings where
  ipAddress : String
  useDemoMode : Bool
  deriving DecidableEq

/-- The reconciler-owned state: the relay collection, the connection
status, and the CORS-restricted flag. -/
structure AppState where
  relays : List Relay
  connectionStatus : ConnectionStatus
  isCorsRestricted : Bool
  deriving DecidableEq

/-- The initial relay collection created at startup. -/
def initialRelays : List Relay :=
  [⟨0, "Living Room Light", false, false⟩,
   ⟨1, "Bedroom Light", false, false⟩,
   ⟨2, "Kitchen Light", false, false⟩,
   ⟨3, "Bedroom Fan", false, false⟩]

/-- `prev.map((r, idx) => ...)`: map with the element index. -/
def mapWithIdx (f : Nat → Relay → Relay) : Nat → List Relay → List Relay
  | _, [] => []
  | i, r :: rs => f i r :: mapWithIdx f (i + 1) rs

/-- The `setRelays` updater of the fully-functional poll branch:
`{ ...r, state: states[idx] ?? false, isLoading: false }`. -/
def applyStates (states : List Bool) (rs : List Relay) : List Relay :=
  mapWithIdx (fun idx r => { r with state := states.getD idx false, isLoading := false }) 0 rs

/-- `syncStatus`: one poll cycle, as a function of the settings, the
probe outcome and the pre-poll state. Returns the post-poll state and
whether the network probe was actually issued (the demo branch returns
before any fetch). -/
def syncStatus (settings : AppSettings) (probe : FetchResult) (s : AppState) :
    AppState × Bool :=
  if settings.useDemoMode then
    ({ s with connectionStatus := .connected, isCorsRestricted := false }, false)
  else
    let s1 := if s.connectionStatus = .error ∨ s.connectionStatus = .disconnected
      then { s with connectionStatus := .connecting } else s
    match probe with
    | .statesKnown states =>
      ({ s1 with isCorsRestricted := false,
                 relays := applyStates states s1.relays,
                 connectionStatus := .connected }, true)
    | .reachableOpaque =>
      ({ s1 with isCorsRestricted := true, connectionStatus := .connected }, true)
    | .unreachable _ =>
      ({ s1 with connectionStatus := .error, isCorsRestricted := false }, true)

/-- The optimistic-toggle updater:
`prev.map(r => r.id === id ? { ...r, state: !r.state } : r)`. -/
def flipRelay (id : Nat) (rs : List Relay) : List Relay :=
  rs.map fun r => if r.id == id then { r with state := !r.state } else r

/-- Observable outcome of one `handleToggle` call: the resulting app
state, whether the command transport was invoked, whether the failure
`alert` fired, and whether a 500 ms confirmation poll was scheduled. -/
structure ToggleResult where
  state : AppState
  transportCalled : Bool
  alerted : Bool
  confirmScheduled : Bool
  deriving DecidableEq

/-- `handleToggle(id)`: flip the relay optimistically; if not in demo
mode, await the transport, scheduling a confirmation sync when fully
connected, and on transport rejection revert the flip and alert. -/
def handleToggle (settings : AppSettings) (transport : Except String Unit)
    (id : Nat) (s : AppState) : ToggleResult :=
  let s1 := { s with relays := flipRelay id s.relays }
  if settings.useDemoMode then ⟨s1, false, false, false⟩
  else
    match transport with
    | Except.ok _ => ⟨s1, true, false, !s.isCorsRestricted⟩
    | Except.error _ => ⟨{ s1 with relays := flipRelay id s1.relays }, true, true, false⟩

/-- The `'on' | 'off'` voice action type. -/
inductive RelayAction where
  | on
  | off
  deriving DecidableEq

/-- `handleVoiceCommand(id, action)`: find the relay by id; if found and
the action would change its state, delegate to `handleToggle`; otherwise
do nothing. -/
def handleVoiceCommand (settings : AppSettings) (transport : Except String Unit)
    (id : Nat) (action : RelayAction) (s : AppState) : ToggleResult :=
  match s.relays.find? (fun r => r.id == id) with
  | none => ⟨s, false, false, false⟩
  | some relay =>
    let shouldToggle :=
      (decide (action = RelayAction.on) && !relay.state)
      || (decide (action = RelayAction.off) && relay.state)
    if shouldToggle then handleToggle settings transport id s
    else ⟨s, false, false, false⟩

/-- Observable outcome of one `handleLcdSubmit` call. -/
structure LcdResult where
  networkCalled : Bool
  alerted : Bool
  cleared : Bool
  deriving DecidableEq

/-- `handleLcdSubmit`: ignore blank text; in demo mode only wait a
simulated delay; otherwise send the POST and alert on rejection. -/
def handleLcdSubmit (settings : AppSettings) (lcdText : String)
    (send : Except String Unit) : LcdResult :=
  if lcdText.trim.isEmpty then ⟨false, false, false⟩
  else if settings.useDemoMode then ⟨false, false, true⟩
  else
    match send with
    | Except.ok _ => ⟨true, false, true⟩
    | Except.error _ => ⟨true, true, false⟩

/-! ## Voice command engine (`src/components/VoiceControl.tsx`) -/

/-- One token of a wake-phrase regex: a literal character, `\s+`, or
`\s*`. -/
inductive Tok where
  | lit (c : Char)
  | ws
  | wss
  deriving DecidableEq

/-- Regex matching of a token sequence at the head of the text, with full
backtracking: `lit c` consumes one character equal to `c` up to case,
`ws` consumes one or more whitespace characters, `wss` zero or more.
Structural recursion on an explicit fuel; every recursive call lowers
`ts.length + s.length`, so the fuel supplied by `matchToks` below never
runs out and the `0` branch is unreachable. -/
def matchToksFuel : Nat → List Tok → List Char → Bool
  | 0, _, _ => false
  | _ + 1, [], _ => true
  | _ + 1, .lit _ :: _, [] => false
  | f + 1, .lit c :: ts, d :: ds => (d.toLower == c) && matchToksFuel f ts ds
  | _ + 1, .ws :: _, [] => false
  | f + 1, .ws :: ts, d :: ds =>
    d.isWhitespace && (matchToksFuel f ts ds || matchToksFuel f (.ws :: ts) ds)
  | f + 1, .wss :: ts, [] => matchToksFuel f ts []
  | f + 1, .wss :: ts, d :: ds =>
    matchToksFuel f ts (d :: ds) || (d.isWhitespace && matchToksFuel f (.wss :: ts) ds)

/-- Match a token sequence at the head of the text. -/
def matchToks (ts : List Tok) (s : List Char) : Bool :=
  matchToksFuel (ts.length + s.length + 1) ts s

/-- Unanchored search: does the token sequence match at some position? -/
def existsMatch (ts : List Tok) : List Char → Bool
  | [] => matchToks ts []
  | c :: rest => matchToks ts (c :: rest) || existsMatch ts rest

/-- A wake pattern: its token sequence and whether it is anchored at the
start of the utterance (a leading `^`). -/
structure WakePattern where
  anchored : Bool
  toks : List Tok
  deriving DecidableEq

/-- The literal characters of a word as regex tokens. -/
def litToks (s : String) : List Tok := s.data.map Tok.lit

/-- Two literal words separated by `\s+`. -/
def wsPair (a b : String) : List Tok := litToks a ++ [Tok.ws] ++ litToks b

/-- Two literal words separated by `\s*`. -/
def wssPair (a b : String) : List Tok := litToks a ++ [Tok.wss] ++ litToks b

/-- The fixed ordered wake-phrase pattern list of `checkForWakeWord`:
fourteen identity triggers tolerant of misrecognitions of "Hey Mewmew",
then ten direct-command prefixes anchored at the start. -/
def wakePatterns : List WakePattern :=
  [⟨false, wsPair ("hey") ("mew")⟩,
   ⟨false, wsPair ("hey") ("mu")⟩,
   ⟨false, wsPair ("hey") ("new")⟩,
   ⟨false, wsPair ("hey") ("you")⟩,
   ⟨false, wsPair ("hey") ("me")⟩,
   ⟨false, wsPair ("hey") ("menu")⟩,
   ⟨false, wssPair ("mew") ("mew")⟩,
   ⟨false, wssPair ("meow") ("meow")⟩,
   ⟨false, wsPair ("hey") ("meow")⟩,
   ⟨false, wsPair ("hi") ("mew")⟩,
   ⟨false, wsPair ("hello") ("mew")⟩,
   ⟨false, wsPair ("ok") ("mew")⟩,
   ⟨false, wsPair ("hey") ("may")⟩,
   ⟨false, wsPair ("hey") ("man")⟩,
   ⟨true, wsPair ("turn") ("on")⟩,
   ⟨true, wsPair ("turn") ("off")⟩,
   ⟨true, wsPair ("switch") ("on")⟩,
   ⟨true, wsPair ("switch") ("off")⟩,
   ⟨true, wsPair ("turn") ("of")⟩,
   ⟨true, wsPair ("turn") ("onn")⟩,
   ⟨true, litToks ("on") ++ [Tok.ws]⟩,
   ⟨true, litToks ("off") ++ [Tok.ws]⟩,
   ⟨true, litToks ("start") ++ [Tok.ws]⟩,
   ⟨true, litToks ("stop") ++ [Tok.ws]⟩]

/-- `checkForWakeWord`: `patterns.some(p => p.test(text))`. -/
def checkForWakeWord (text : List Char) : Bool :=
  wakePatterns.any fun p =>
    if p.anchored then matchToks p.toks text else existsMatch p.toks text

/-- `String.prototype.includes`: case-sensitive substring containment. -/
def strHas (pat : List Char) : List Char → Bool
  | [] => pat.isEmpty
  | c :: rest => pat.isPrefixOf (c :: rest) || strHas pat rest

/-- The JS `\w` word-character class `[A-Za-z0-9_]`. -/
def isWordChar (c : Char) : Bool :=
  (('a' ≤ c && c ≤ 'z') || ('A' ≤ c && c ≤ 'Z') || ('0' ≤ c && c ≤ '9') || c == '_')

/-- Scan for `\b pat \b` (with `pat` made of word characters): `pat`
occurs with no word character immediately before or after. `prevIsWord`
says whether the character before the current position is a word
character; at the start of the string it is `false`. -/
def wordMatchAux (pat : List Char) (prevIsWord : Bool) : List Char → Bool
  | [] => false
  | c :: rest =>
    (!prevIsWord && pat.isPrefixOf (c :: rest)
      && (match (c :: rest).drop pat.length with
          | [] => true
          | d :: _ => !isWordChar d))
    || wordMatchAux pat (isWordChar c) rest

/-- Word-boundary regex test `/\bpat\b/` over the utterance. -/
def wordMatch (pat : List Char) (s : List Char) : Bool :=
  wordMatchAux pat false s

/-- The relay-selection chain of `processCommand`, in source order; the
first matching clause wins. -/
def matchRelay (cmd : List Char) : Option Nat :=
  if strHas ("relay 1").data cmd || strHas ("one").data cmd
      || strHas ("living room").data cmd then some 0
  else if strHas ("relay 2").data cmd || strHas ("two").data cmd
      || strHas ("bedroom light").data cmd then some 1
  else if strHas ("relay 3").data cmd || strHas ("three").data cmd
      || strHas ("kitchen").data cmd then some 2
  else if strHas ("relay 4").data cmd || strHas ("four").data cmd
      || strHas ("fan").data cmd then some 3
  else none

/-- The enhanced OFF-intent test of `processCommand`. -/
def isOffCmd (cmd : List Char) : Bool :=
  wordMatch ("off").data cmd || wordMatch ("of").data cmd
    || strHas ("stop").data cmd || strHas ("kill").data cmd
    || strHas ("deactivate").data cmd || strHas ("shutdown").data cmd

/-- The enhanced ON-intent test of `processCommand`. -/
def isOnCmd (cmd : List Char) : Bool :=
  wordMatch ("on").data cmd || wordMatch ("onn").data cmd
    || strHas ("start").data cmd || strHas ("active").data cmd
    || strHas ("enable").data cmd || strHas ("engage").data cmd

/-- `processCommand`: select a relay, then test OFF-intent before
ON-intent; emit nothing when no relay or no action matches. -/
def processCommand (cmd : List Char) : Option (Nat × RelayAction) :=
  match matchRelay cmd with
  | none => none
  | some relayId =>
    if isOffCmd cmd then some (relayId, RelayAction.off)
    else if isOnCmd cmd then some (relayId, RelayAction.on)
    else none

/-- The awake-window sub-state: `awakeUntil` is the instant at which the
10 s timer armed by `activateAwakeMode` fires, or `none`. -/
structure VoiceState where
  awakeUntil : Option Nat
  deriving DecidableEq

/-- Is the awake window still open at `now`? -/
def isAwakeAt (v : VoiceState) (now : Nat) : Bool :=
  match v.awakeUntil with
  | some t => now < t
  | none => false

/-- `cmd = finalTranscript.toLowerCase().trim()`. -/
def normalizeUtterance (s : String) : List Char :=
  (((s.data.map Char.toLower).dropWhile Char.isWhitespace).reverse.dropWhile
    Char.isWhitespace).reverse

/-- The finalized-utterance branch of `onresult`: lower-case and trim the
transcript; if it contains a wake trigger, re-arm the awake window to
`now + 10000` and try to extract a command from the same utterance; else
if the awake window is open, try extraction; else ignore. Returns the new
voice state and the command passed to `onCommand`, if any. -/
def handleUtterance (now : Nat) (v : VoiceState) (raw : String) :
    VoiceState × Option (Nat × RelayAction) :=
  let cmd := normalizeUtterance raw
  if checkForWakeWord cmd then
    (⟨some (now + 10000)⟩, processCommand cmd)
  else if isAwakeAt v now then
    (v, processCommand cmd)
  else
    (v, none)

/-! ## Helper lemmas -/

/-- `parseRelayStatus` always yields exactly four booleans. -/
lemma parseRelayStatus_length (html : String) : (parseRelayStatus html).length = 4 := by
  simp [parseRelayStatus]

/-- A list of length four is literally a four-element list. -/
lemma exists_four {α : Type _} (l : List α) (h : l.length = 4) :
    ∃ a b c d, l = [a, b, c, d] := by
  rcases l with _ | ⟨a, _ | ⟨b, _ | ⟨c, _ | ⟨d, _ | ⟨e, l⟩⟩⟩⟩⟩ <;>
    first
      | exact ⟨a, b, c, d, rfl⟩
      | simp at h

/-- Indexing through `mapWithIdx` shifts by the starting index. -/
lemma mapWithIdx_getElem? (f : Nat → Relay → Relay) :
    ∀ (n : Nat) (rs : List Relay) (i : Nat),
      (mapWithIdx f n rs)[i]? = (rs[i]?).map (f (n + i)) := by
  intro n rs
  induction rs generalizing n with
  | nil => intro i; simp [mapWithIdx]
  | cons r rs ih =>
    intro i
    cases i with
    | zero => simp [mapWithIdx]
    | succ j =>
      have he : n + 1 + j = n + (j + 1) := by omega
      simp only [mapWithIdx, List.getElem?_cons_succ]
      rw [ih (n + 1) j, he]

/-- Indexing the fully-functional poll update: entry `i` keeps relay `i`
but takes its state from `states[i] ?? false` and clears `isLoading`. -/
lemma applyStates_getElem? (states : List Bool) (rs : List Relay) (i : Nat) :
    (applyStates states rs)[i]? =
      (rs[i]?).map (fun r => { r with state := states.getD i false, isLoading := false }) := by
  unfold applyStates
  rw [mapWithIdx_getElem?]
  simp

/-- The optimistic flip is an involution: flipping the same id twice
restores the original collection. -/
lemma flipRelay_flipRelay (k : Nat) (rs : List Relay) :
    flipRelay k (flipRelay k rs) = rs := by
  induction rs with
  | nil => rfl
  | cons r rs ih =>
    simp only [flipRelay, List.map_cons] at ih ⊢
    rw [ih]
    rcases r with ⟨rid, rname, rstate, rload⟩
    by_cases h : rid = k <;> simp [h]

/-- Flipping an id that no relay carries changes nothing. -/
lemma flipRelay_of_absent (k : Nat) (rs : List Relay) (h : ∀ r ∈ rs, r.id ≠ k) :
    flipRelay k rs = rs := by
  induction rs with
  | nil => rfl
  | cons r rs ih =>
    have h1 : r.id ≠ k := h r (List.mem_cons_self r rs)
    have h2 : ∀ x ∈ rs, x.id ≠ k := fun x hx => h x (List.mem_cons_of_mem r hx)
    have ht := ih h2
    simp only [flipRelay, beq_iff_eq] at ht
    simp [flipRelay, h1, ht]

/-- Every beacon event resolves the transport promise. -/
lemma toggleTransportResult_isOk (ev : BeaconEvent) :
    toggleTransportResult ev = Except.ok () := by
  cases ev <;> rfl

/-- The combined leftmost scan for `on | off` agrees with comparing the
first occurrence positions of the two patterns separately: the captured
group is ON exactly when the ON pattern occurs no later than the OFF
pattern (at equal positions the ON alternative is tried first). -/
lemma findRelayMatch_eq_firstCiIdx (pon poff : List Char)
    (hon : pon ≠ []) (hoff : poff ≠ []) (s : List Char) :
    findRelayMatch pon poff s =
      (match firstCiIdx pon s, firstCiIdx poff s with
       | some k, some j => some (decide (k ≤ j))
       | some _, none => some true
       | none, some _ => some false
       | none, none => none) := by
  induction s with
  | nil =>
    simp [findRelayMatch, firstCiIdx, List.isEmpty_iff, hon, hoff]
  | cons c rest ih =>
    by_cases hA : ciStarts pon (c :: rest) = true
    · have h1 : firstCiIdx pon (c :: rest) = some 0 := by simp [firstCiIdx, hA]
      have h2 : findRelayMatch pon poff (c :: rest) = some true := by
        simp [findRelayMatch, hA]
      rw [h1, h2]
      rcases firstCiIdx poff (c :: rest) with _ | j <;> simp
    · have h1 : firstCiIdx pon (c :: rest) = (firstCiIdx pon rest).map (· + 1) := by
        simp [firstCiIdx, hA]
      by_cases hC : ciStarts poff (c :: rest) = true
      · have h2 : firstCiIdx poff (c :: rest) = some 0 := by simp [firstCiIdx, hC]
        have h3 : findRelayMatch pon poff (c :: rest) = some false := by
          simp [findRelayMatch, hA, hC]
        rw [h1, h2, h3]
        rcases firstCiIdx pon rest with _ | k <;> simp
      · have h2 : firstCiIdx poff (c :: rest) = (firstCiIdx poff rest).map (· + 1) := by
          simp [firstCiIdx, hC]
        have h3 : findRelayMatch pon poff (c :: rest) = findRelayMatch pon poff rest := by
          simp [findRelayMatch, hA, hC]
        rw [h1, h2, h3, ih]
        rcases firstCiIdx pon rest with _ | k <;>
          rcases firstCiIdx poff rest with _ | j <;> simp

/-! ## Claim theorems -/

/-- C1: every probe run yields exactly one of three outcomes, exhaustively
and mutually exclusively: `statesKnown` (the parsed 4-boolean array of the
response body) iff the readable tier resolves with an ok HTTP status;
`reachableOpaque` iff the readable tier fails and the opaque tier
succeeds; `unreachable` iff both tiers fail — and the error carried by
`unreachable` is exactly the tier-1 error, never the tier-2 one. -/
theorem fetchRelayStatus_trichotomy (t1 : Tier1Result) (t2 : Tier2Result) :
    ((∃ sts, fetchRelayStatus t1 t2 = .statesKnown sts) ↔ tier1Err t1 = none)
    ∧ (fetchRelayStatus t1 t2 = .reachableOpaque ↔ (tier1Err t1 ≠ none ∧ t2 = .ok))
    ∧ ((∃ e, fetchRelayStatus t1 t2 = .unreachable e) ↔
        (tier1Err t1 ≠ none ∧ ∃ m, t2 = .reject m))
    ∧ (∀ e, fetchRelayStatus t1 t2 = .unreachable e → tier1Err t1 = some e)
    ∧ (∀ status body, t1 = .resp status body → httpOk status = true →
        fetchRelayStatus t1 t2 = .statesKnown (parseRelayStatus body))
    ∧ (∀ sts, fetchRelayStatus t1 t2 = .statesKnown sts → sts.length = 4) := by
  cases t1 with
  | resp status body =>
    by_cases h : httpOk status = true
    · cases t2 <;>
        simp [fetchRelayStatus, fallbackProbe, tier1Err, h, parseRelayStatus_length]
    · cases t2 <;>
        simp [fetchRelayStatus, fallbackProbe, tier1Err, h]
  | reject msg =>
    cases t2 <;> simp [fetchRelayStatus, fallbackProbe, tier1Err]

/-- Witness for C1 at a concrete double failure: the probe reports
`unreachable` carrying the tier-1 network error. -/
theorem fetchRelayStatus_trichotomy_witness :
    tier1Err (Tier1Result.reject ("net down")) =
      some (ProbeError.network ("net down")) :=
  (fetchRelayStatus_trichotomy (Tier1Result.reject ("net down"))
      (Tier2Result.reject ("timed out"))).2.2.2.1
    (ProbeError.network ("net down")) rfl

/-- C5 counterexample: on an input whose first `Relay 1:` match is OFF but
which also contains `Relay 1: ON` further right, entry 0 parses to
`false`, so "entry i is true iff the text contains a case-insensitive
match of `Relay {i+1}: ON`" fails at this input. -/
theorem parseRelayStatus_claim_counterexample :
    ¬ (((parseRelayStatus ("Relay 1: OFF Relay 1: ON")).getD 0 false = true) ↔
        firstCiIdx (relayOnPat 0) (("Relay 1: OFF Relay 1: ON") : String).data ≠ none) := by
  decide

/-- For an in-range index, entry `i` of the parse is the result of the
scan for the index-`i` patterns. -/
lemma parseRelayStatus_getD (html : String) (i : Nat) (hi : i < 4) :
    (parseRelayStatus html).getD i false =
      (findRelayMatch (relayOnPat i) (relayOffPat i) html.data).getD false := by
  have h4 : i = 0 ∨ i = 1 ∨ i = 2 ∨ i = 3 := by omega
  rcases h4 with rfl | rfl | rfl | rfl <;> rfl

/-- Pushing `getD false` through the two-option match shape. -/
lemma getD_matchShape (x y : Option Nat) :
    (match x, y with
     | some k, some j => some (decide (k ≤ j))
     | some _, none => some true
     | none, some _ => some false
     | none, none => none).getD false =
      (match x, y with
       | some k, some j => decide (k ≤ j)
       | some _, none => true
       | none, _ => false) := by
  rcases x with _ | k <;> rcases y with _ | j <;> rfl

/-- C5 amended: `parseRelayStatus` returns exactly 4 booleans; entry `i`
is true iff the *earliest* case-insensitive occurrence of either pattern
for index `i` exists and is the `Relay {i+1}: ON` one (ON wins a tie, and
when only one of the two patterns occurs this coincides with the claim as
written); it defaults to false when neither pattern occurs. In particular
`"Relay 1: ON Relay 3: OFF"` parses to `[true, false, false, false]`, and
the function is pure and deterministic. -/
theorem parseRelayStatus_firstMatch (html : String) (i : Nat) (hi : i < 4) :
    (parseRelayStatus html).getD i false =
      (match firstCiIdx (relayOnPat i) html.data, firstCiIdx (relayOffPat i) html.data with
       | some k, some j => decide (k ≤ j)
       | some _, none => true
       | none, _ => false)
    ∧ (parseRelayStatus html).length = 4
    ∧ parseRelayStatus ("Relay 1: ON Relay 3: OFF") = [true, false, false, false] := by
  refine ⟨?_, parseRelayStatus_length html, by decide⟩
  rw [parseRelayStatus_getD html i hi]
  have h4 : i = 0 ∨ i = 1 ∨ i = 2 ∨ i = 3 := by omega
  rcases h4 with rfl | rfl | rfl | rfl <;>
    rw [findRelayMatch_eq_firstCiIdx _ _ (by decide) (by decide)] <;>
    exact getD_matchShape _ _

/-- Witness for C5's amended theorem at a concrete input: entry 1 of
`"Relay 2: on"` follows the first-occurrence rule. -/
theorem parseRelayStatus_firstMatch_witness :
    (parseRelayStatus ("Relay 2: on")).getD 1 false =
      (match firstCiIdx (relayOnPat 1) (("Relay 2: on") : String).data,
             firstCiIdx (relayOffPat 1) (("Relay 2: on") : String).data with
       | some k, some j => decide (k ≤ j)
       | some _, none => true
       | none, _ => false) :=
  (parseRelayStatus_firstMatch ("Relay 2: on") 1 (by decide)).1

/-- The transient "Connecting" flicker of a poll never touches the relay
collection. -/
lemma syncStatus_pre_relays (s : AppState) :
    (if s.connectionStatus = .error ∨ s.connectionStatus = .disconnected
      then { s with connectionStatus := ConnectionStatus.connecting } else s).relays
      = s.relays := by
  split <;> rfl

/-- C2: in non-demo mode, a `statesKnown` poll overwrites every relay's
`state` exactly from the parsed truth (entrywise `states[idx] ?? false`,
and equal to the parsed vector when both have the fixed length 4), sets
status `connected` and clears the restricted flag; a `reachableOpaque`
or `unreachable` poll leaves the relay collection — in particular every
`state` field — unchanged from before the poll. -/
theorem syncStatus_frame (settings : AppSettings) (s : AppState)
    (sts : List Bool) (e : ProbeError) (hd : settings.useDemoMode = false) :
    (∀ i : Nat, ((syncStatus settings (.statesKnown sts) s).1.relays)[i]? =
      (s.relays[i]?).map
        (fun r => { r with state := sts.getD i false, isLoading := false }))
    ∧ (syncStatus settings (.statesKnown sts) s).1.connectionStatus = .connected
    ∧ (syncStatus settings (.statesKnown sts) s).1.isCorsRestricted = false
    ∧ (s.relays.length = 4 → sts.length = 4 →
        (syncStatus settings (.statesKnown sts) s).1.relays.map (fun r => r.state) = sts)
    ∧ (syncStatus settings .reachableOpaque s).1.relays = s.relays
    ∧ (syncStatus settings (.unreachable e) s).1.relays = s.relays := by
  have hrel : (syncStatus settings (.statesKnown sts) s).1.relays
      = applyStates sts s.relays := by
    simp only [syncStatus, hd, Bool.false_eq_true, if_false]
    rw [syncStatus_pre_relays s]
  refine ⟨?_, ?_, ?_, ?_, ?_, ?_⟩
  · intro i
    rw [hrel, applyStates_getElem?]
  · simp [syncStatus, hd]
  · simp [syncStatus, hd]
  · intro hr4 hs4
    rw [hrel]
    obtain ⟨r0, r1, r2, r3, hr⟩ := exists_four s.relays hr4
    obtain ⟨b0, b1, b2, b3, hb⟩ := exists_four sts hs4
    rw [hr, hb]
    rfl
  · simp only [syncStatus, hd, Bool.false_eq_true, if_false]
    exact syncStatus_pre_relays s
  · simp only [syncStatus, hd, Bool.false_eq_true, if_false]
    exact syncStatus_pre_relays s

/-- Witness for C2 at a concrete non-demo poll: the parsed truth
`[true, false, true, false]` lands verbatim in the four relays. -/
theorem syncStatus_frame_witness :
    (syncStatus ⟨"172.16.234.150", false⟩ (.statesKnown [true, false, true, false])
        ⟨initialRelays, .connecting, false⟩).1.relays.map (fun r => r.state)
      = [true, false, true, false] :=
  ((syncStatus_frame ⟨"172.16.234.150", false⟩ ⟨initialRelays, .connecting, false⟩
      [true, false, true, false] (ProbeError.network ("x")) rfl).2.2.2.1) rfl rfl

/-- C3: `handleToggle` first applies the optimistic flip unconditionally
(in demo mode or when the transport resolves, the post-state is exactly
the flipped collection); in non-demo mode, when the transport rejects,
the flip is reverted so the relay collection equals its pre-toggle value,
and the user-facing failure alert fires. -/
theorem handleToggle_optimistic_rollback (settings : AppSettings) (k : Nat) (s : AppState) :
    ((handleToggle settings (Except.ok ()) k s).state.relays = flipRelay k s.relays)
    ∧ (settings.useDemoMode = true → ∀ tr,
        (handleToggle settings tr k s).state.relays = flipRelay k s.relays
        ∧ (handleToggle settings tr k s).alerted = false)
    ∧ (settings.useDemoMode = false → ∀ msg,
        (handleToggle settings (Except.error msg) k s).state.relays = s.relays
        ∧ (handleToggle settings (Except.error msg) k s).alerted = true) := by
  refine ⟨?_, ?_, ?_⟩
  · by_cases hd : settings.useDemoMode <;> simp [handleToggle, hd]
  · intro hd tr
    simp [handleToggle, hd]
  · intro hd msg
    simp [handleToggle, hd, flipRelay_flipRelay]

/-- Witness for C3 at a concrete failing dispatch: the collection returns
to its pre-toggle value. -/
theorem handleToggle_optimistic_rollback_witness :
    (handleToggle ⟨"172.16.234.150", false⟩ (Except.error ("dispatch failed")) 1
        ⟨initialRelays, .connected, false⟩).state.relays = initialRelays ∧
    (handleToggle ⟨"172.16.234.150", false⟩ (Except.error ("dispatch failed")) 1
        ⟨initialRelays, .connected, false⟩).alerted = true :=
  (handleToggle_optimistic_rollback ⟨"172.16.234.150", false⟩ 1
      ⟨initialRelays, .connected, false⟩).2.2 rfl ("dispatch failed")

/-- C4: for every address and relay index, the beacon-based
`toggleRelayRequest` promise always resolves — `onload`, `onerror` and the
unconditional 100 ms timeout all call `resolve`, and `reject` is never
invoked — so through this transport the catch branch of `handleToggle`
(rollback and failure alert) is unreachable: the optimistic flip always
stands and no alert ever fires. -/
theorem toggleRelayRequest_never_rejects (ev : BeaconEvent) (settings : AppSettings)
    (k : Nat) (s : AppState) :
    toggleRelaySettle ev = PromiseSettle.resolved
    ∧ toggleTransportResult ev = Except.ok ()
    ∧ (handleToggle settings (toggleTransportResult ev) k s).alerted = false
    ∧ (handleToggle settings (toggleTransportResult ev) k s).state.relays
        = flipRelay k s.relays := by
  have h2 := toggleTransportResult_isOk ev
  refine ⟨by cases ev <;> rfl, h2, ?_, ?_⟩ <;>
    rw [h2] <;> by_cases hd : settings.useDemoMode <;> simp [handleToggle, hd]

/-- C6: with demo mode enabled no operation issues a network call —
`syncStatus` returns after pinning status `connected` (restricted flag
cleared, relays untouched) without probing, `handleToggle` never invokes
the transport so the optimistic flip is final and never rolled back (and
never alerts), and the display-text submit never sends. -/
theorem demo_mode_no_network (settings : AppSettings) (probe : FetchResult)
    (tr send : Except String Unit) (k : Nat) (text : String) (s : AppState)
    (hd : settings.useDemoMode = true) :
    (syncStatus settings probe s).2 = false
    ∧ (syncStatus settings probe s).1 =
        { s with connectionStatus := .connected, isCorsRestricted := false }
    ∧ (handleToggle settings tr k s).transportCalled = false
    ∧ (handleToggle settings tr k s).state.relays = flipRelay k s.relays
    ∧ (handleToggle settings tr k s).alerted = false
    ∧ (handleLcdSubmit settings text send).networkCalled = false := by
  refine ⟨?_, ?_, ?_, ?_, ?_, ?_⟩
  · simp [syncStatus, hd]
  · simp [syncStatus, hd]
  · simp [handleToggle, hd]
  · simp [handleToggle, hd]
  · simp [handleToggle, hd]
  · by_cases ht : text.trim.isEmpty <;> simp [handleLcdSubmit, hd, ht]

/-- Witness for C6 at a concrete demo-mode cycle: neither the probe nor
the toggle transport is used. -/
theorem demo_mode_no_network_witness :
    (syncStatus ⟨"172.16.234.150", true⟩ FetchResult.reachableOpaque
        ⟨initialRelays, .connecting, false⟩).2 = false ∧
    (handleToggle ⟨"172.16.234.150", true⟩ (Except.error ("boom")) 0
        ⟨initialRelays, .connecting, false⟩).transportCalled = false :=
  ⟨(demo_mode_no_network ⟨"172.16.234.150", true⟩ FetchResult.reachableOpaque
      (Except.error ("boom")) (Except.ok ()) 0 ("hello")
      ⟨initialRelays, .connecting, false⟩ rfl).1,
   (demo_mode_no_network ⟨"172.16.234.150", true⟩ FetchResult.reachableOpaque
      (Except.error ("boom")) (Except.ok ()) 0 ("hello")
      ⟨initialRelays, .connecting, false⟩ rfl).2.2.1⟩

/-- C10: for a command index carried by no relay (in particular any index
outside the fixed id range 0..3 of the 4-relay collection), the command
path is a no-op that surfaces no failure: `handleVoiceCommand` returns
the state untouched with no transport call and no alert, and even a
direct `handleToggle` through the program's own beacon transport leaves
the relay collection unchanged and never alerts. -/
theorem outOfRange_command_noop (settings : AppSettings) (ev : BeaconEvent)
    (k : Nat) (action : RelayAction) (s : AppState)
    (h : ∀ r ∈ s.relays, r.id ≠ k) :
    handleVoiceCommand settings (toggleTransportResult ev) k action s
      = ⟨s, false, false, false⟩
    ∧ (handleToggle settings (toggleTransportResult ev) k s).state.relays = s.relays
    ∧ (handleToggle settings (toggleTransportResult ev) k s).alerted = false := by
  have hflip : flipRelay k s.relays = s.relays := flipRelay_of_absent k s.relays h
  have hfind : s.relays.find? (fun r => r.id == k) = none := by
    rw [List.find?_eq_none]
    intro r hr
    simpa using h r hr
  refine ⟨?_, ?_, ?_⟩
  · simp [handleVoiceCommand, hfind]
  · rw [toggleTransportResult_isOk]
    by_cases hd : settings.useDemoMode <;> simp [handleToggle, hd, hflip]
  · rw [toggleTransportResult_isOk]
    by_cases hd : settings.useDemoMode <;> simp [handleToggle, hd]

/-- Witness for C10 at the concrete startup collection and the
out-of-range index 7. -/
theorem outOfRange_command_noop_witness :
    handleVoiceCommand ⟨"172.16.234.150", false⟩
        (toggleTransportResult BeaconEvent.load) 7 RelayAction.on
        ⟨initialRelays, .connected, false⟩
      = ⟨⟨initialRelays, .connected, false⟩, false, false, false⟩ :=
  (outOfRange_command_noop ⟨"172.16.234.150", false⟩ BeaconEvent.load 7
      RelayAction.on ⟨initialRelays, .connected, false⟩ (by decide)).1

/-- C7: wake-phrase matching is case-insensitive and accepts the
registered misrecognition variants and the direct-imperative prefixes;
the utterance `"hey mew turn on living room"` both (re)arms the awake
window to `now + 10000` (renewing any earlier window in full) and, on the
same utterance, extracts the command `(relay 0, on)` and hands it to the
command callback. -/
theorem wake_phrase_one_shot :
    handleUtterance 0 ⟨none⟩ ("hey mew turn on living room")
      = (⟨some 10000⟩, some (0, RelayAction.on))
    ∧ handleUtterance 0 ⟨none⟩ ("Hey Mew turn on Living Room")
      = (⟨some 10000⟩, some (0, RelayAction.on))
    ∧ handleUtterance 2000 ⟨some 3000⟩ ("hey mew") = (⟨some 12000⟩, none)
    ∧ checkForWakeWord (("HEY MEW") : String).data = true
    ∧ checkForWakeWord (("hey new") : String).data = true
    ∧ checkForWakeWord (("hey you") : String).data = true
    ∧ checkForWakeWord (("ok mew") : String).data = true
    ∧ checkForWakeWord (("meowmeow") : String).data = true
    ∧ checkForWakeWord (("turn off everything") : String).data = true
    ∧ checkForWakeWord (("start the fan") : String).data = true := by
  decide

/-- C8: a finalized utterance with no wake phrase is processed as an
implicit command exactly when the awake window is still open; concretely,
`"kitchen off"` heard at 5000 ms against a window open until 10000 ms
extracts `(relay 2, off)`, while the same utterance after expiry, or with
no prior trigger, is ignored and produces no command. -/
theorem implicit_command_window (now : Nat) (v : VoiceState) (raw : String)
    (h : checkForWakeWord (normalizeUtterance raw) = false) :
    handleUtterance now v raw =
      (v, if isAwakeAt v now then processCommand (normalizeUtterance raw) else none)
    ∧ handleUtterance 5000 ⟨some 10000⟩ ("kitchen off")
      = (⟨some 10000⟩, some (2, RelayAction.off))
    ∧ handleUtterance 15000 ⟨some 10000⟩ ("kitchen off") = (⟨some 10000⟩, none)
    ∧ handleUtterance 5000 ⟨none⟩ ("kitchen off") = (⟨none⟩, none) := by
  refine ⟨?_, by decide, by decide, by decide⟩
  simp only [handleUtterance, h, Bool.false_eq_true, if_false]
  by_cases ha : isAwakeAt v now <;> simp [ha]

/-- Witness for C8 at the concrete in-window utterance. -/
theorem implicit_command_window_witness :
    handleUtterance 5000 ⟨some 10000⟩ ("kitchen off") =
      (⟨some 10000⟩,
       if isAwakeAt ⟨some 10000⟩ 5000
         then processCommand (normalizeUtterance ("kitchen off")) else none) :=
  (implicit_command_window 5000 ⟨some 10000⟩ ("kitchen off") (by decide)).1

/-- C9: in command extraction the off-intent test runs before the
on-intent test, so any utterance that selects a relay and matches both an
off-intent word and an on-intent word emits the action `off`, never
`on`. -/
theorem off_intent_precedence (cmd : List Char) (relayId : Nat)
    (hr : matchRelay cmd = some relayId) (hoff : isOffCmd cmd = true)
    (hon : isOnCmd cmd = true) :
    processCommand cmd = some (relayId, RelayAction.off)
    ∧ processCommand cmd ≠ some (relayId, RelayAction.on) := by
  constructor
  · simp [processCommand, hr, hoff]
  · simp [processCommand, hr, hoff]

/-- Witness for C9 at an utterance containing both "start" and "stop":
the emitted action is off. -/
theorem off_intent_precedence_witness :
    processCommand (("kitchen start stop") : String).data
      = some (2, RelayAction.off) :=
  (off_intent_precedence (("kitchen start stop") : String).data 2
      (by decide) (by decide) (by decide)).1
